import Mathlib

/-
Shallow embedding of src/api/services/tools/api_tools_manage_service.py
(class ApiToolManageService).  The service's external collaborators — the
schema parser, the credential cipher, the provider controller's credential
checks, the HTTP client — are not part of the sources and are modelled from
the spec as black-box functions collected in an `Env`.  The record store is
the spec's abstract store, modelled as a list of records; JSON
serialisation of dict-valued columns is a bijection and is modelled at the
dict level.  Python's `ValueError(message)` raises are modelled as an
error enumeration `SvcError` with one constructor per raise site, each
carrying the data interpolated into the message.
-/

set_option linter.unusedVariables false

/-- One callable operation extracted from an API schema.  Modelled from the
spec (OperationBundle): the service code under verification observes only
the operation identifier (`tb.operation_id`). -/
structure ApiToolBundle where
  operation_id : String
deriving DecidableEq

/-- A credential mapping: a Python dict from field name to string value,
modelled as an association list in insertion order. -/
abbrev Creds := List (String × String)

/-- Dictionary lookup on a credential mapping: value of the first binding
of the key, `none` when the key is absent. -/
def lookupCred : Creds → String → Option String
  | [], _ => none
  | p :: rest, n => if p.1 = n then some p.2 else lookupCred rest n

/-- Persisted provider record.  Modelled from the spec (ProviderRecord): the
ORM model `models.tools.ApiToolProvider` is not part of the sources, so the
fields are the ones the spec's data model lists and the service reads and
writes.  `id` is the identity assigned on creation (`none` before a record
is persisted, as for the ephemeral record testPreview builds). -/
structure ApiToolProvider where
  id : Option Nat
  tenant_id : String
  user_id : String
  name : String
  icon : String
  schema : String
  description : String
  schema_type_str : String
  tools_str : List ApiToolBundle
  credentials_str : Creds
  privacy_policy : String
  custom_disclaimer : String
deriving DecidableEq

/-- Modelled from the spec: the closed enum of recognised schema types
(`ApiProviderSchemaType`, not part of the sources).  The spec fixes OpenAPI
as one member ("schema type (enum: e.g. OpenAPI/others)"); `swagger`
stands for one of the spec's further members. -/
inductive ApiProviderSchemaType where
  | openapi
  | swagger
deriving DecidableEq

/-- The string value of a schema type enum member. -/
def ApiProviderSchemaType.value : ApiProviderSchemaType → String
  | .openapi => ("openapi")
  | .swagger => ("swagger")

/-- The list `[member.value for member in ApiProviderSchemaType]` used by
the membership checks of the service. -/
def schemaTypeValues : List String := [("openapi"), ("swagger")]

/-- Modelled from the spec: the closed auth type enum {none, api_key}
(`ApiProviderAuthType`, not part of the sources). -/
inductive ApiProviderAuthType where
  | auth_none
  | api_key
deriving DecidableEq

/-- Error taxonomy of the service: one constructor per `raise ValueError`
site of the source, carrying the data interpolated into the message. -/
inductive SvcError where
  | invalidSchemaType (schema : String)
  | invalidSchemaTypePreview (schema_type : String)
  | conflict (name : String)
  | invalidSchema (detail : String)
  | limitExceeded
  | authTypeRequired
  | invalidAuthType (value : String)
  | notFound (name : String)
  | invalidToolName (name : String)
  | invalidSchemaShort
  | remoteSchemaInvalid
  | keyError (key : String)
deriving DecidableEq

/-- The user-visible message of each error, as written in the source's
f-strings. -/
def SvcError.message : SvcError → String
  | .invalidSchemaType s => ("invalid schema type ") ++ s
  | .invalidSchemaTypePreview s => ("invalid schema type ") ++ s
  | .conflict n => ("provider ") ++ n ++ (" already exists")
  | .invalidSchema d => ("invalid schema: ") ++ d
  | .limitExceeded => ("the number of apis should be less than 100")
  | .authTypeRequired => ("auth_type is required")
  | .invalidAuthType v => ("invalid mode value ") ++ v
  | .notFound n => ("api provider ") ++ n ++ (" does not exists")
  | .invalidToolName n => ("invalid tool name ") ++ n
  | .invalidSchemaShort => ("invalid schema")
  | .remoteSchemaInvalid => ("invalid schema, please check the url you provided")
  | .keyError k => ("KeyError: ") ++ k

/-- Modelled from the spec: `ApiProviderAuthType.value_of` resolves the
auth_type string to the enum, failing on an unrecognised value. -/
def ApiProviderAuthType.value_of (s : String) : Except SvcError ApiProviderAuthType :=
  if s = ("none") then .ok .auth_none
  else if s = ("api_key") then .ok .api_key
  else .error (.invalidAuthType s)

/-- External collaborators of the service, per the spec's interfaces
(section 6): the schema parser (returning bundles, the parsed schema type
and the extra-info description, empty string when the parser supplies
none), the per-provider credential cipher with its masking function, the
controller's credential checks, and the HTTP client returning a status
code and a body.  All are black boxes supplied as functions. -/
structure Env where
  parse : String → Except String (List ApiToolBundle × String × String)
  encrypt : Creds → Creds
  decrypt : Creds → Creds
  mask : Creds → Creds
  validateCredentialsFormat : ApiProviderAuthType → Creds → Except String Unit
  validateCredentialsLive : Creds → List (String × String) → Except String String
  httpGet : String → Except String (Nat × String)

/-- The abstract record store: the list of persisted provider records. -/
abbrev Store := List ApiToolProvider

/-- The store query `query(ApiToolProvider).where(tenant_id == t, name == n)
.first()`: the first record of the store with the given tenant id and
name. -/
def findProvider : Store → String → String → Option ApiToolProvider
  | [], _, _ => none
  | p :: rest, t, n =>
    if p.tenant_id = t ∧ p.name = n then some p else findProvider rest t n

/-- Committing a mutated loaded row: the first record matching the lookup
key is replaced in place, every other record is unchanged. -/
def replaceFirst : Store → String → String → ApiToolProvider → Store
  | [], _, _, _ => []
  | p :: rest, t, n, q =>
    if p.tenant_id = t ∧ p.name = n then q :: rest
    else p :: replaceFirst rest t n q

/-- Helper for trimming: drops leading whitespace characters from a
character list. -/
def dropWhileWS : List Char → List Char
  | [] => []
  | c :: rest => if c.isWhitespace then dropWhileWS rest else c :: rest

/-- Python's `str.strip()` on provider names: surrounding whitespace
removed from both ends, written as structural recursion on the character
list so concrete calls evaluate. -/
def strTrim (s : String) : String :=
  ⟨(dropWhileWS (dropWhileWS s.data).reverse).reverse⟩

/-- The credential merge loop shared by update and preview (source lines
304-306 and 420-422): for each submitted binding whose key is present in
the masked credentials with exactly the submitted value, the binding is
replaced by the corresponding original credential; Python's `KeyError` on
a key absent from the originals is modelled as `SvcError.keyError`. -/
def mergeCredentials (original masked : Creds) : Creds → Except SvcError Creds
  | [] => .ok []
  | (n, v) :: rest =>
    if lookupCred masked n = some v then
      match lookupCred original n with
      | some ov => (mergeCredentials original masked rest).map (fun r => (n, ov) :: r)
      | none => .error (.keyError n)
    else
      (mergeCredentials original masked rest).map (fun r => (n, v) :: r)

/-- ApiToolManageService.create_api_tool_provider.  `nextId` is the
identity the store assigns to the new record on commit.  The best-effort
label attachment after commit touches only the external label store and is
not modelled. -/
def create_api_tool_provider (env : Env) (store : Store) (nextId : Nat)
    (user_id tenant_id provider_name icon : String) (credentials : Creds)
    (schema_type schema privacy_policy custom_disclaimer : String) :
    Except SvcError (Store × String) :=
  if schemaTypeValues.contains schema_type then
    let provider_name := strTrim provider_name
    match findProvider store tenant_id provider_name with
    | some _ => .error (.conflict provider_name)
    | none =>
      match env.parse schema with
      | .error e => .error (.invalidSchema e)
      | .ok (tool_bundles, schema_type2, description) =>
        if tool_bundles.length > 100 then .error .limitExceeded
        else
          match lookupCred credentials ("auth_type") with
          | none => .error .authTypeRequired
          | some a =>
            match ApiProviderAuthType.value_of a with
            | .error e => .error e
            | .ok _auth_type =>
              let db_provider : ApiToolProvider :=
                { id := some nextId
                  tenant_id := tenant_id
                  user_id := user_id
                  name := provider_name
                  icon := icon
                  schema := schema
                  description := description
                  schema_type_str := schema_type2
                  tools_str := tool_bundles
                  credentials_str := env.encrypt credentials
                  privacy_policy := privacy_policy
                  custom_disclaimer := custom_disclaimer }
              .ok (store ++ [db_provider], ("success"))
  else .error (.invalidSchemaType schema)

/-- ApiToolManageService.update_api_tool_provider.  The record found under
(tenant_id, original_provider) is mutated in place: all display fields take
the submitted or freshly compiled values, `schema_type_str` is set to the
fixed OpenAPI value (source line 279), and the credentials are re-encrypted
after the merge loop against the decrypted previously stored credentials.
Cache invalidation and label attachment touch only external state and are
not modelled. -/
def update_api_tool_provider (env : Env) (store : Store)
    (user_id tenant_id provider_name original_provider icon : String)
    (credentials : Creds)
    (schema_type schema privacy_policy custom_disclaimer : String) :
    Except SvcError (Store × String) :=
  if schemaTypeValues.contains schema_type then
    let provider_name := strTrim provider_name
    match findProvider store tenant_id original_provider with
    | none => .error (.notFound provider_name)
    | some provider =>
      match env.parse schema with
      | .error e => .error (.invalidSchema e)
      | .ok (tool_bundles, _schema_type2, description) =>
        let provider1 := { provider with
          name := provider_name
          icon := icon
          schema := schema
          description := description
          schema_type_str := ApiProviderSchemaType.openapi.value
          tools_str := tool_bundles
          privacy_policy := privacy_policy
          custom_disclaimer := custom_disclaimer }
        match lookupCred credentials ("auth_type") with
        | none => .error .authTypeRequired
        | some a =>
          match ApiProviderAuthType.value_of a with
          | .error e => .error e
          | .ok _auth_type =>
            let original_credentials := env.decrypt provider1.credentials_str
            let masked_credentials := env.mask original_credentials
            match mergeCredentials original_credentials masked_credentials credentials with
            | .error e => .error e
            | .ok merged =>
              let provider2 := { provider1 with credentials_str := env.encrypt merged }
              .ok (replaceFirst store tenant_id original_provider provider2, ("success"))
  else .error (.invalidSchemaType schema)

/-- The record test_api_tool_preview operates on: the stored record when
the (tenant, provider_name) lookup succeeds, otherwise the ephemeral
in-memory record with empty tenant/user/name and no identity (source lines
386-398). -/
def previewProviderRecord (store : Store) (tenant_id provider_name schema : String)
    (tool_bundles : List ApiToolBundle) (credentials : Creds) : ApiToolProvider :=
  match findProvider store tenant_id provider_name with
  | some p => p
  | none =>
    { id := none
      tenant_id := ("")
      user_id := ("")
      name := ("")
      icon := ("")
      schema := schema
      description := ("")
      schema_type_str := ApiProviderSchemaType.openapi.value
      tools_str := tool_bundles
      credentials_str := credentials
      privacy_policy := ("")
      custom_disclaimer := ("") }

/-- The credential preparation step of test_api_tool_preview (source lines
411-422): when the record has an identity, the submitted credentials are
decrypted, the result is masked, and the merge loop is run against the
submitted credentials; otherwise the submitted credentials are used
unchanged.  Note the source decrypts `credentials` (the submitted dict),
not the record's stored credentials. -/
def previewEffectiveCredentials (env : Env) (db_provider : ApiToolProvider)
    (credentials : Creds) : Except SvcError Creds :=
  if db_provider.id.isSome then
    let decrypted_credentials := env.decrypt credentials
    let masked_credentials := env.mask decrypted_credentials
    mergeCredentials decrypted_credentials masked_credentials credentials
  else .ok credentials

/-- The try block of test_api_tool_preview (source lines 424-434): format
validation, tool fetch (`get_tool`, modelled from the spec as a lookup
among the loaded bundles failing with a not-found message), runtime
binding, and the live credential validation call.  Any failure inside the
block is an `Except.error` carrying the exception's message. -/
def previewTryBlock (env : Env) (auth_type : ApiProviderAuthType)
    (tool_bundles : List ApiToolBundle) (tool_name : String)
    (credentials : Creds) (parameters : List (String × String)) :
    Except String String :=
  match env.validateCredentialsFormat auth_type credentials with
  | .error m => .error m
  | .ok _ =>
    match tool_bundles.find? (fun tb => tb.operation_id == tool_name) with
    | none => .error (("tool ") ++ tool_name ++ (" is not found"))
    | some _tool => env.validateCredentialsLive credentials parameters

/-- The outcome dict of test_api_tool_preview: either `\x7b"result": r\x7d`
or the structured `\x7b"error": message\x7d` produced by the catch. -/
inductive PreviewOutcome where
  | result (s : String)
  | error (s : String)
deriving DecidableEq

/-- ApiToolManageService.test_api_tool_preview. -/
def test_api_tool_preview (env : Env) (store : Store)
    (tenant_id provider_name tool_name : String) (credentials : Creds)
    (parameters : List (String × String)) (schema_type schema : String) :
    Except SvcError PreviewOutcome :=
  if schemaTypeValues.contains schema_type then
    match env.parse schema with
    | .error _ => .error .invalidSchemaShort
    | .ok (tool_bundles, _, _) =>
      match tool_bundles.find? (fun tb => tb.operation_id == tool_name) with
      | none => .error (.invalidToolName tool_name)
      | some _ =>
        let db_provider :=
          previewProviderRecord store tenant_id provider_name schema tool_bundles credentials
        match lookupCred credentials ("auth_type") with
        | none => .error .authTypeRequired
        | some a =>
          match ApiProviderAuthType.value_of a with
          | .error e => .error e
          | .ok auth_type =>
            match previewEffectiveCredentials env db_provider credentials with
            | .error e => .error e
            | .ok credentials2 =>
              match previewTryBlock env auth_type tool_bundles tool_name
                  credentials2 parameters with
              | .error e => .ok (.error e)
              | .ok r => .ok (.result (if r = ("") then ("empty response") else r))
  else .error (.invalidSchemaTypePreview schema_type)

/-- ApiToolManageService.get_api_tool_provider_remote_schema: fetch the
url, require status code exactly 200, parse the body purely to validate
it; every failure inside the try block — network error, wrong status,
parse failure — is normalised to the one generic error. -/
def get_api_tool_provider_remote_schema (env : Env) (url : String) :
    Except SvcError String :=
  match env.httpGet url with
  | .error _ => .error .remoteSchemaInvalid
  | .ok (status_code, body) =>
    if status_code = 200 then
      match env.parse body with
      | .error _ => .error .remoteSchemaInvalid
      | .ok _ => .ok body
    else .error .remoteSchemaInvalid

/-- The uniqueness invariant of the store: no two records share both
tenant id and name. -/
def distinctKey (p q : ApiToolProvider) : Bool :=
  !(p.tenant_id == q.tenant_id && p.name == q.name)

/-- Boolean check that the (tenant id, name) pairs of the store are
pairwise distinct. -/
def uniqueTenantNames : Store → Bool
  | [] => true
  | p :: rest => rest.all (distinctKey p) && uniqueTenantNames rest

/-- Concrete fixture: the one operation bundle used by concrete test
inputs. -/
def sampleBundle : ApiToolBundle := { operation_id := ("op1") }

/-- Concrete fixture: a parser returning one bundle with schema type
openapi, failing on the input "bad". -/
def sampleParse (s : String) : Except String (List ApiToolBundle × String × String) :=
  if s = ("bad") then .error ("boom") else .ok ([sampleBundle], ("openapi"), (""))

/-- Concrete fixture cipher: encryption prefixes the api_key_value with a
marker. -/
def sampleEncrypt (c : Creds) : Creds :=
  c.map (fun p => if p.1 = ("api_key_value") then (p.1, ("enc:") ++ p.2) else p)

/-- Concrete fixture cipher: decryption recovers the one secret this
fixture ever encrypts and passes every other value through, as a cipher
does on values that are not ciphertext. -/
def sampleDecrypt (c : Creds) : Creds :=
  c.map (fun p => if p.2 = ("enc:secret1") then (p.1, ("secret1")) else p)

/-- Concrete fixture masking: the sensitive api_key_value field is
replaced by a placeholder derived deterministically from the value. -/
def sampleMask (c : Creds) : Creds :=
  c.map (fun p => if p.1 = ("api_key_value") then (p.1, ("mask:") ++ p.2) else p)

/-- Concrete fixture environment: every collaborator succeeds; the live
validation call echoes the api_key_value it was handed, making the bound
credentials observable in the preview result; plain HTTP fetch fails with
a network error. -/
def envA : Env :=
  { parse := sampleParse
    encrypt := sampleEncrypt
    decrypt := sampleDecrypt
    mask := sampleMask
    validateCredentialsFormat := fun _ _ => .ok ()
    validateCredentialsLive := fun c _ => .ok ((lookupCred c ("api_key_value")).getD (""))
    httpGet := fun _ => .error ("network unreachable") }

/-- Concrete fixture: plaintext api-key credentials holding secret1. -/
def credsPlain : Creds := [(("auth_type"), ("api_key")), (("api_key_value"), ("secret1"))]

/-- Concrete fixture: the same credentials with the masked placeholder of
secret1 round-tripped back as the submitted value. -/
def credsMasked : Creds := [(("auth_type"), ("api_key")), (("api_key_value"), ("mask:secret1"))]

/-- Concrete fixture: submitted credentials carrying a genuinely new
secret. -/
def credsNew : Creds := [(("auth_type"), ("api_key")), (("api_key_value"), ("secret2"))]

/-- Concrete fixture: a persisted provider record named p under tenant t
storing the encrypted secret1. -/
def provA : ApiToolProvider :=
  { id := some 1
    tenant_id := ("t")
    user_id := ("u")
    name := ("p")
    icon := ("i")
    schema := ("s")
    description := ("")
    schema_type_str := ("openapi")
    tools_str := [sampleBundle]
    credentials_str := sampleEncrypt credsPlain
    privacy_policy := ("")
    custom_disclaimer := ("") }

/-- Concrete fixture: a second persisted provider record named q under the
same tenant t. -/
def provB : ApiToolProvider :=
  { id := some 2
    tenant_id := ("t")
    user_id := ("u")
    name := ("q")
    icon := ("i")
    schema := ("s")
    description := ("")
    schema_type_str := ("openapi")
    tools_str := [sampleBundle]
    credentials_str := sampleEncrypt credsPlain
    privacy_policy := ("")
    custom_disclaimer := ("") }

/-- Concrete fixture: a parser that compiles every schema to 101 bundles. -/
def env101 : Env :=
  { envA with parse := fun _ => .ok (List.replicate 101 sampleBundle, ("openapi"), ("")) }

/-- Concrete fixture: a parser that compiles every schema to exactly 100
bundles. -/
def env100 : Env :=
  { envA with parse := fun _ => .ok (List.replicate 100 sampleBundle, ("openapi"), ("")) }

/-- Concrete fixture: a parser reporting the non-OpenAPI schema type
swagger. -/
def envSwag : Env :=
  { envA with parse := fun _ => .ok ([sampleBundle], ("swagger"), ("")) }

/-- Concrete fixture: the controller's credential-format validation
rejects the credentials. -/
def envFmtBad : Env :=
  { envA with validateCredentialsFormat := fun _ _ => .error ("api_key_value is required") }

/-- Concrete fixture: the live credential-validation probe against the
external endpoint throws. -/
def envLiveBad : Env :=
  { envA with validateCredentialsLive := fun _ _ => .error ("connection refused") }

/-- Concrete fixture: the HTTP client returns status 404. -/
def env404 : Env :=
  { envA with httpGet := fun _ => .ok (404, ("not here")) }

/-- Concrete fixture: the HTTP client returns the success-class status
201. -/
def env201 : Env :=
  { envA with httpGet := fun _ => .ok (201, ("created")) }

/-- Concrete fixture: the HTTP client returns the success-class status
204. -/
def env204 : Env :=
  { envA with httpGet := fun _ => .ok (204, ("")) }

/-- Concrete fixture: the HTTP client returns 200 with a body the parser
rejects. -/
def envParseBad : Env :=
  { envA with httpGet := fun _ => .ok (200, ("bad")) }

/-- Concrete fixture: the record provA after an update submitting the
masked credentials together with a new icon, schema, privacy policy and
disclaimer: the merge restores the stored plaintext, so the re-encrypted
credentials equal the original ciphertext, and the schema type is the
fixed OpenAPI value. -/
def provAUpdated : ApiToolProvider :=
  { id := some 1
    tenant_id := ("t")
    user_id := ("u")
    name := ("p")
    icon := ("i2")
    schema := ("s2")
    description := ("")
    schema_type_str := ("openapi")
    tools_str := [sampleBundle]
    credentials_str := sampleEncrypt credsPlain
    privacy_policy := ("pp")
    custom_disclaimer := ("cd") }

/-- Concrete fixture: the record provA after the same update run under the
101-bundle parser: identical except for the bundle list. -/
def prov101Updated : ApiToolProvider :=
  { provAUpdated with tools_str := List.replicate 101 sampleBundle }

/-- Concrete fixture: the record provA after an update renaming it to q,
the name provB already holds under the same tenant. -/
def provARenamedQ : ApiToolProvider :=
  { provAUpdated with name := ("q") }

/-- Concrete fixture: the record provA after an update renaming it to the
fresh name x. -/
def provARenamedX : ApiToolProvider :=
  { provAUpdated with name := ("x") }

/-- Concrete fixture: the record produced by creating provider r under
tenant t with the plaintext credentials. -/
def provR : ApiToolProvider :=
  { id := some 2
    tenant_id := ("t")
    user_id := ("u")
    name := ("r")
    icon := ("i")
    schema := ("s")
    description := ("")
    schema_type_str := ("openapi")
    tools_str := [sampleBundle]
    credentials_str := sampleEncrypt credsPlain
    privacy_policy := ("")
    custom_disclaimer := ("") }

/-- Concrete fixture: the record produced by creating provider p under the
second tenant t2. -/
def provT2 : ApiToolProvider :=
  { id := some 3
    tenant_id := ("t2")
    user_id := ("u")
    name := ("p")
    icon := ("i")
    schema := ("s")
    description := ("")
    schema_type_str := ("openapi")
    tools_str := [sampleBundle]
    credentials_str := sampleEncrypt credsPlain
    privacy_policy := ("")
    custom_disclaimer := ("") }

/-- Helper: a successful update pins down every intermediate of the update
pipeline — the schema type passed the membership check, the record was
found under (tenant, original name), the schema compiled, the merge loop
succeeded, and the resulting store replaces that record by one carrying
the submitted fields, the fixed OpenAPI schema type, and the re-encrypted
merged credentials. -/
theorem update_ok_extract (env : Env) (store : Store)
    (user_id tenant_id provider_name original_provider icon : String)
    (credentials : Creds) (schema_type schema privacy_policy custom_disclaimer : String)
    (store2 : Store) (res : String)
    (h : update_api_tool_provider env store user_id tenant_id provider_name original_provider
        icon credentials schema_type schema privacy_policy custom_disclaimer
        = .ok (store2, res)) :
    ∃ provider tool_bundles schema_type2 description merged,
      schemaTypeValues.contains schema_type = true ∧
      findProvider store tenant_id original_provider = some provider ∧
      env.parse schema = .ok (tool_bundles, schema_type2, description) ∧
      mergeCredentials (env.decrypt provider.credentials_str)
        (env.mask (env.decrypt provider.credentials_str)) credentials = .ok merged ∧
      res = ("success") ∧
      store2 = replaceFirst store tenant_id original_provider
        { id := provider.id, tenant_id := provider.tenant_id, user_id := provider.user_id,
          name := strTrim provider_name, icon := icon, schema := schema,
          description := description, schema_type_str := ("openapi"),
          tools_str := tool_bundles, credentials_str := env.encrypt merged,
          privacy_policy := privacy_policy, custom_disclaimer := custom_disclaimer } := by
  simp only [update_api_tool_provider] at h
  split at h
  case isTrue hval =>
    split at h
    case h_1 => exact absurd h (by simp)
    case h_2 provider hfind =>
      split at h
      case h_1 => exact absurd h (by simp)
      case h_2 r tool_bundles schema_type2 description hparse =>
        split at h
        case h_1 => exact absurd h (by simp)
        case h_2 a hauth =>
          split at h
          case h_1 => exact absurd h (by simp)
          case h_2 at_ hvo =>
            split at h
            case h_1 => exact absurd h (by simp)
            case h_2 merged hmerge =>
              simp only [Except.ok.injEq, Prod.mk.injEq] at h
              obtain ⟨h1, h2⟩ := h
              exact ⟨provider, tool_bundles, schema_type2, description, merged,
                hval, hfind, hparse, hmerge, h2.symm,
                by simp [← h1, ApiProviderSchemaType.value]⟩
  case isFalse hval => exact absurd h (by simp)

/-- Helper: field-wise description of the merge loop.  For the first
binding of a submitted field, the merged mapping holds the original
credential exactly when the submitted value equals the masked credential
of that field, and the submitted value otherwise. -/
theorem lookupCred_mergeCredentials (original masked : Creds) (submitted merged : Creds)
    (n v : String)
    (hm : mergeCredentials original masked submitted = .ok merged)
    (hs : lookupCred submitted n = some v) :
    (lookupCred masked n = some v → lookupCred merged n = lookupCred original n) ∧
    (lookupCred masked n ≠ some v → lookupCred merged n = some v) := by
  induction submitted generalizing merged with
  | nil => simp [lookupCred] at hs
  | cons p rest ih =>
    obtain ⟨k, w⟩ := p
    simp only [mergeCredentials] at hm
    by_cases hk : k = n
    · subst hk
      have hwv : w = v := by simpa [lookupCred] using hs
      subst hwv
      by_cases hmk : lookupCred masked k = some w
      · rw [if_pos hmk] at hm
        match ho : lookupCred original k with
        | some ov =>
          rw [ho] at hm
          match hrest : mergeCredentials original masked rest with
          | .ok rest2 =>
            rw [hrest] at hm
            simp only [Except.map, Except.ok.injEq] at hm
            subst hm
            refine ⟨fun _ => by simp [lookupCred, ho], fun hne => absurd hmk hne⟩
          | .error e => rw [hrest] at hm; exact absurd hm (by simp [Except.map])
        | none => rw [ho] at hm; exact absurd hm (by simp)
      · rw [if_neg hmk] at hm
        match hrest : mergeCredentials original masked rest with
        | .ok rest2 =>
          rw [hrest] at hm
          simp only [Except.map, Except.ok.injEq] at hm
          subst hm
          refine ⟨fun hmk2 => absurd hmk2 hmk, fun _ => by simp [lookupCred]⟩
        | .error e => rw [hrest] at hm; exact absurd hm (by simp [Except.map])
    · have hs' : lookupCred rest n = some v := by
        simpa [lookupCred, hk] using hs
      by_cases hmk : lookupCred masked k = some w
      · rw [if_pos hmk] at hm
        match ho : lookupCred original k with
        | some ov =>
          rw [ho] at hm
          match hrest : mergeCredentials original masked rest with
          | .ok rest2 =>
            rw [hrest] at hm
            simp only [Except.map, Except.ok.injEq] at hm
            subst hm
            have hih := ih rest2 hrest hs'
            refine ⟨fun hmn => ?_, fun hmn => ?_⟩
            · simpa [lookupCred, hk] using hih.1 hmn
            · simpa [lookupCred, hk] using hih.2 hmn
          | .error e => rw [hrest] at hm; exact absurd hm (by simp [Except.map])
        | none => rw [ho] at hm; exact absurd hm (by simp)
      · rw [if_neg hmk] at hm
        match hrest : mergeCredentials original masked rest with
        | .ok rest2 =>
          rw [hrest] at hm
          simp only [Except.map, Except.ok.injEq] at hm
          subst hm
          have hih := ih rest2 hrest hs'
          refine ⟨fun hmn => ?_, fun hmn => ?_⟩
          · simpa [lookupCred, hk] using hih.1 hmn
          · simpa [lookupCred, hk] using hih.2 hmn
        | .error e => rw [hrest] at hm; exact absurd hm (by simp [Except.map])

/-- C1: on updateProvider, for every credential field whose submitted value
equals the masked representation of the previously stored value, the
previously stored plaintext is substituted in the merge that precedes
re-encryption, so the stored secret is preserved; for every field whose
submitted value differs from the mask, the submitted value is kept as the
new plaintext; the merged credentials are what the updated record stores in
encrypted form. -/
theorem update_merge_on_update_rule (env : Env) (store : Store)
    (user_id tenant_id provider_name original_provider icon : String)
    (credentials : Creds) (schema_type schema privacy_policy custom_disclaimer : String)
    (store2 : Store) (res : String) (provider : ApiToolProvider) (n v : String)
    (hfind : findProvider store tenant_id original_provider = some provider)
    (hupd : update_api_tool_provider env store user_id tenant_id provider_name
        original_provider icon credentials schema_type schema privacy_policy
        custom_disclaimer = .ok (store2, res))
    (hs : lookupCred credentials n = some v) :
    ∃ merged p2,
      mergeCredentials (env.decrypt provider.credentials_str)
        (env.mask (env.decrypt provider.credentials_str)) credentials = .ok merged ∧
      store2 = replaceFirst store tenant_id original_provider p2 ∧
      p2.credentials_str = env.encrypt merged ∧
      (lookupCred (env.mask (env.decrypt provider.credentials_str)) n = some v →
        lookupCred merged n = lookupCred (env.decrypt provider.credentials_str) n) ∧
      (lookupCred (env.mask (env.decrypt provider.credentials_str)) n ≠ some v →
        lookupCred merged n = some v) := by
  obtain ⟨provider2, tb, st2, d, merged, hval, hfind2, hparse, hmerge, hres, hstore⟩ :=
    update_ok_extract env store user_id tenant_id provider_name original_provider icon
      credentials schema_type schema privacy_policy custom_disclaimer store2 res hupd
  rw [hfind] at hfind2
  obtain rfl : provider = provider2 := by injection hfind2
  have hfield := lookupCred_mergeCredentials _ _ _ _ n v hmerge hs
  exact ⟨merged, _, hmerge, hstore, rfl, hfield.1, hfield.2⟩

/-- Witness for C1 at a concrete input: updating provider p of tenant t
with the masked placeholder of secret1 submitted back as the api key
value. -/
theorem update_merge_on_update_rule_witness :
    ∃ merged p2,
      mergeCredentials (envA.decrypt provA.credentials_str)
        (envA.mask (envA.decrypt provA.credentials_str)) credsMasked = .ok merged ∧
      [provAUpdated] = replaceFirst [provA] ("t") ("p") p2 ∧
      p2.credentials_str = envA.encrypt merged ∧
      (lookupCred (envA.mask (envA.decrypt provA.credentials_str)) ("api_key_value")
          = some ("mask:secret1") →
        lookupCred merged ("api_key_value")
          = lookupCred (envA.decrypt provA.credentials_str) ("api_key_value")) ∧
      (lookupCred (envA.mask (envA.decrypt provA.credentials_str)) ("api_key_value")
          ≠ some ("mask:secret1") →
        lookupCred merged ("api_key_value") = some ("mask:secret1")) :=
  update_merge_on_update_rule envA [provA] ("u") ("t") ("p") ("p") ("i2") credsMasked
    ("openapi") ("s2") ("pp") ("cd") [provAUpdated] ("success") provA
    ("api_key_value") ("mask:secret1") rfl rfl rfl

/-- Helper: the only error value_of produces is the unrecognised-auth-type
error for its argument. -/
theorem value_of_error (s : String) (e : SvcError)
    (h : ApiProviderAuthType.value_of s = .error e) : e = .invalidAuthType s := by
  unfold ApiProviderAuthType.value_of at h
  split at h
  · exact absurd h (by simp)
  · split at h
    · exact absurd h (by simp)
    · simp only [Except.error.injEq] at h
      exact h.symm

/-- Helper: the only error the merge loop produces is a key error. -/
theorem mergeCredentials_error (original masked submitted : Creds) (e : SvcError)
    (h : mergeCredentials original masked submitted = .error e) :
    ∃ k, e = SvcError.keyError k := by
  induction submitted generalizing e with
  | nil => simp [mergeCredentials] at h
  | cons p rest ih =>
    obtain ⟨k, w⟩ := p
    simp only [mergeCredentials] at h
    by_cases hmk : lookupCred masked k = some w
    · rw [if_pos hmk] at h
      match ho : lookupCred original k with
      | some ov =>
        rw [ho] at h
        match hrest : mergeCredentials original masked rest with
        | .ok r2 => rw [hrest] at h; exact absurd h (by simp [Except.map])
        | .error e2 =>
          rw [hrest] at h
          simp only [Except.map, Except.error.injEq] at h
          subst h
          exact ih e2 hrest
      | none =>
        rw [ho] at h
        simp only [Except.error.injEq] at h
        exact ⟨k, h.symm⟩
    · rw [if_neg hmk] at h
      match hrest : mergeCredentials original masked rest with
      | .ok r2 => rw [hrest] at h; exact absurd h (by simp [Except.map])
      | .error e2 =>
        rw [hrest] at h
        simp only [Except.map, Except.error.injEq] at h
        subst h
        exact ih e2 hrest

/-- Helper: a failed store lookup means no record of the store carries the
key. -/
theorem findProvider_eq_none (store : Store) (t n : String)
    (h : findProvider store t n = none) :
    ∀ p ∈ store, ¬(p.tenant_id = t ∧ p.name = n) := by
  induction store with
  | nil => simp
  | cons q rest ih =>
    simp only [findProvider] at h
    split at h
    case isTrue hq => exact absurd h (by simp)
    case isFalse hq =>
      intro p hp
      rcases List.mem_cons.mp hp with rfl | hp2
      · exact hq
      · exact ih h p hp2

/-- Helper: a successful store lookup returns a member of the store
carrying the key. -/
theorem findProvider_eq_some (store : Store) (t n : String) (p : ApiToolProvider)
    (h : findProvider store t n = some p) :
    p ∈ store ∧ p.tenant_id = t ∧ p.name = n := by
  induction store with
  | nil => simp [findProvider] at h
  | cons q rest ih =>
    simp only [findProvider] at h
    split at h
    case isTrue hq =>
      obtain rfl : q = p := by injection h
      exact ⟨List.mem_cons_self _ _, hq⟩
    case isFalse hq =>
      obtain ⟨h1, h2⟩ := ih h
      exact ⟨List.mem_cons_of_mem _ h1, h2⟩

/-- Helper: looking a key up in an extended store first consults the old
records. -/
theorem findProvider_append (l1 l2 : Store) (t n : String) :
    findProvider (l1 ++ l2) t n =
      match findProvider l1 t n with
      | some p => some p
      | none => findProvider l2 t n := by
  induction l1 with
  | nil => simp [findProvider]
  | cons q rest ih =>
    simp only [List.cons_append, findProvider]
    split
    · rfl
    · exact ih

/-- Helper: replacing a record in a store yields only old records and the
replacement. -/
theorem mem_replaceFirst (store : Store) (t n : String) (q p : ApiToolProvider)
    (h : p ∈ replaceFirst store t n q) : p ∈ store ∨ p = q := by
  induction store with
  | nil => simp [replaceFirst] at h
  | cons r rest ih =>
    simp only [replaceFirst] at h
    split at h
    · rcases List.mem_cons.mp h with rfl | h2
      · exact Or.inr rfl
      · exact Or.inl (List.mem_cons_of_mem _ h2)
    · rcases List.mem_cons.mp h with rfl | h2
      · exact Or.inl (List.mem_cons_self _ _)
      · rcases ih h2 with h3 | h3
        · exact Or.inl (List.mem_cons_of_mem _ h3)
        · exact Or.inr h3

/-- Helper: the key-distinctness check in Prop form. -/
theorem distinctKey_eq_true (p q : ApiToolProvider) :
    distinctKey p q = true ↔ ¬(p.tenant_id = q.tenant_id ∧ p.name = q.name) := by
  simp only [distinctKey, Bool.not_eq_true', Bool.and_eq_false_iff, beq_eq_false_iff_ne,
    ne_eq, not_and]
  tauto

/-- Helper: appending a record whose key clashes with no existing record
preserves the uniqueness invariant. -/
theorem uniqueTenantNames_append_single (store : Store) (x : ApiToolProvider)
    (hu : uniqueTenantNames store = true)
    (hx : ∀ p ∈ store, distinctKey p x = true) :
    uniqueTenantNames (store ++ [x]) = true := by
  induction store with
  | nil => simp [uniqueTenantNames]
  | cons q rest ih =>
    simp only [uniqueTenantNames, Bool.and_eq_true, List.all_eq_true] at hu ⊢
    obtain ⟨h1, h2⟩ := hu
    refine ⟨?_, ih h2 (fun p hp => hx p (List.mem_cons_of_mem _ hp))⟩
    intro p hp
    rcases List.mem_append.mp hp with h3 | h3
    · exact h1 p h3
    · obtain rfl : p = x := by simpa using h3
      exact hx q (List.mem_cons_self _ _)

/-- Helper: replacing the record keyed (t, orig) by a record named so that
it clashes with no other record of the tenant preserves the uniqueness
invariant. -/
theorem uniqueTenantNames_replaceFirst (store : Store) (t orig : String)
    (q : ApiToolProvider)
    (hu : uniqueTenantNames store = true)
    (hqt : q.tenant_id = t)
    (hcoll : ∀ p ∈ store, p.tenant_id = t → p.name = q.name → p.name = orig) :
    uniqueTenantNames (replaceFirst store t orig q) = true := by
  induction store with
  | nil => simp [replaceFirst, uniqueTenantNames]
  | cons r rest ih =>
    simp only [uniqueTenantNames, Bool.and_eq_true, List.all_eq_true] at hu
    obtain ⟨h1, h2⟩ := hu
    simp only [replaceFirst]
    split
    case isTrue hr =>
      simp only [uniqueTenantNames, Bool.and_eq_true, List.all_eq_true]
      refine ⟨?_, h2⟩
      intro p hp
      rw [distinctKey_eq_true]
      rintro ⟨hpt, hpn⟩
      have hpt2 : p.tenant_id = t := by rw [← hpt, hqt]
      have hpn2 : p.name = orig :=
        hcoll p (List.mem_cons_of_mem _ hp) hpt2 hpn.symm
      have := (distinctKey_eq_true r p).mp (h1 p hp)
      exact this ⟨by rw [hr.1, hpt2], by rw [hr.2, hpn2]⟩
    case isFalse hr =>
      simp only [uniqueTenantNames, Bool.and_eq_true, List.all_eq_true]
      refine ⟨?_, ih h2 (fun p hp => hcoll p (List.mem_cons_of_mem _ hp))⟩
      intro p hp
      rcases mem_replaceFirst rest t orig q p hp with h3 | rfl
      · exact h1 p h3
      · rw [distinctKey_eq_true]
        rintro ⟨hrt, hrn⟩
        have hrt2 : r.tenant_id = t := by rw [hrt, hqt]
        have hrn2 : r.name = orig :=
          hcoll r (List.mem_cons_self _ _) hrt2 hrn
        exact hr ⟨hrt2, hrn2⟩

/-- Helper: a successful create pins down every intermediate of the create
pipeline and shows the new store appends exactly the new record. -/
theorem create_ok_extract (env : Env) (store : Store) (nextId : Nat)
    (user_id tenant_id provider_name icon : String) (credentials : Creds)
    (schema_type schema privacy_policy custom_disclaimer : String)
    (store2 : Store) (res : String)
    (h : create_api_tool_provider env store nextId user_id tenant_id provider_name icon
        credentials schema_type schema privacy_policy custom_disclaimer
        = .ok (store2, res)) :
    ∃ tool_bundles schema_type2 description a at_,
      schemaTypeValues.contains schema_type = true ∧
      findProvider store tenant_id (strTrim provider_name) = none ∧
      env.parse schema = .ok (tool_bundles, schema_type2, description) ∧
      ¬ tool_bundles.length > 100 ∧
      lookupCred credentials ("auth_type") = some a ∧
      ApiProviderAuthType.value_of a = .ok at_ ∧
      res = ("success") ∧
      store2 = store ++
        [{ id := some nextId, tenant_id := tenant_id, user_id := user_id,
           name := strTrim provider_name, icon := icon, schema := schema,
           description := description, schema_type_str := schema_type2,
           tools_str := tool_bundles, credentials_str := env.encrypt credentials,
           privacy_policy := privacy_policy, custom_disclaimer := custom_disclaimer }] := by
  simp only [create_api_tool_provider] at h
  split at h
  case isTrue hval =>
    split at h
    case h_1 => exact absurd h (by simp)
    case h_2 hfind =>
      split at h
      case h_1 => exact absurd h (by simp)
      case h_2 r tool_bundles schema_type2 description hparse =>
        split at h
        case isTrue => exact absurd h (by simp)
        case isFalse hlen =>
          split at h
          case h_1 => exact absurd h (by simp)
          case h_2 a hauth =>
            split at h
            case h_1 => exact absurd h (by simp)
            case h_2 at_ hvo =>
              simp only [Except.ok.injEq, Prod.mk.injEq] at h
              obtain ⟨h1, h2⟩ := h
              exact ⟨tool_bundles, schema_type2, description, a, at_,
                hval, hfind, hparse, hlen, hauth, hvo, h2.symm, h1.symm⟩
  case isFalse hval => exact absurd h (by simp)

/-- C2 (refuting, code bug): in testPreview with a persisted record the
code decrypts and masks the submitted credentials, never the record's
stored credentials.  At this input the stored record holds the encrypted
secret1 and the submitted api_key_value is exactly the masked
representation of that stored value, so per the claim the merge should
put secret1 back; yet the effective credentials still carry the
placeholder, the outcome is identical when the stored credentials are
wiped, and the bound tool observes the placeholder. -/
theorem preview_merge_ignores_stored_credentials :
    sampleDecrypt provA.credentials_str = credsPlain ∧
    sampleMask credsPlain = credsMasked ∧
    previewEffectiveCredentials envA provA credsMasked = .ok credsMasked ∧
    lookupCred credsMasked ("api_key_value") ≠ some ("secret1") ∧
    previewEffectiveCredentials envA { provA with credentials_str := [] } credsMasked
      = .ok credsMasked ∧
    test_api_tool_preview envA [provA] ("t") ("p") ("op1") credsMasked [] ("openapi") ("s")
      = .ok (.result ("mask:secret1")) :=
  ⟨rfl, rfl, rfl, by decide, rfl, rfl⟩

/-- Counterexample for C3 as stated: a schema compiling to 101 bundles is
accepted by updateProvider, which performs no limit check. -/
theorem update_no_limit_check_counterexample :
    (env101.parse ("s2")).map (fun r => r.1.length) = .ok 101 ∧
    update_api_tool_provider env101 [provA] ("u") ("t") ("p") ("p") ("i2") credsMasked
      ("openapi") ("s2") ("pp") ("cd") = .ok ([prov101Updated], ("success")) :=
  ⟨rfl, rfl⟩

/-- C3 (amended): createProvider fails with the limit error exactly when
the compiled bundles exceed 100 — at exactly 100 it never fails the limit
check — while updateProvider never raises the limit error at all. -/
theorem create_limit_enforced_update_not (env : Env) (store : Store) (nextId : Nat)
    (user_id tenant_id provider_name icon : String) (credentials : Creds)
    (schema_type schema privacy_policy custom_disclaimer : String)
    (tool_bundles : List ApiToolBundle) (schema_type2 description : String)
    (hval : schemaTypeValues.contains schema_type = true)
    (hfind : findProvider store tenant_id (strTrim provider_name) = none)
    (hparse : env.parse schema = .ok (tool_bundles, schema_type2, description)) :
    (tool_bundles.length > 100 →
      create_api_tool_provider env store nextId user_id tenant_id provider_name icon
        credentials schema_type schema privacy_policy custom_disclaimer
        = .error .limitExceeded) ∧
    (tool_bundles.length ≤ 100 →
      create_api_tool_provider env store nextId user_id tenant_id provider_name icon
        credentials schema_type schema privacy_policy custom_disclaimer
        ≠ .error .limitExceeded) ∧
    (∀ original_provider,
      update_api_tool_provider env store user_id tenant_id provider_name original_provider
        icon credentials schema_type schema privacy_policy custom_disclaimer
        ≠ .error .limitExceeded) := by
  have hmem : schema_type ∈ schemaTypeValues := by simpa using hval
  refine ⟨fun hgt => ?_, fun hle => ?_, fun original_provider => ?_⟩
  · simp [create_api_tool_provider, hval, hmem, hfind, hparse, hgt]
  · intro hbad
    simp only [create_api_tool_provider, hval, if_true, hfind, hparse] at hbad
    rw [if_neg (by omega)] at hbad
    split at hbad
    · exact SvcError.noConfusion (Except.error.inj hbad)
    · split at hbad
      next e hvoe =>
        have he := value_of_error _ _ hvoe
        subst he
        exact SvcError.noConfusion (Except.error.inj hbad)
      next => exact Except.noConfusion hbad
  · intro hbad
    simp only [update_api_tool_provider] at hbad
    rw [if_pos hval] at hbad
    split at hbad
    case h_1 => exact SvcError.noConfusion (Except.error.inj hbad)
    case h_2 provider hfindp =>
      split at hbad
      case h_1 => exact SvcError.noConfusion (Except.error.inj hbad)
      case h_2 =>
        split at hbad
        case h_1 => exact SvcError.noConfusion (Except.error.inj hbad)
        case h_2 a hauth =>
          split at hbad
          case h_1 e hvoe =>
            have he := value_of_error _ _ hvoe
            subst he
            exact SvcError.noConfusion (Except.error.inj hbad)
          case h_2 =>
            split at hbad
            case h_1 e2 hmerr =>
              obtain ⟨k, hk⟩ := mergeCredentials_error _ _ _ _ hmerr
              subst hk
              exact SvcError.noConfusion (Except.error.inj hbad)
            case h_2 => exact Except.noConfusion hbad

/-- Witness for C3 (amended) at concrete inputs: 101 bundles make create
fail the limit, 100 do not, and the 101-bundle update does not fail the
limit. -/
theorem create_limit_enforced_update_not_witness :
    create_api_tool_provider env101 [] 1 ("u") ("t") ("p") ("i") credsPlain ("openapi")
      ("s") ("") ("") = .error .limitExceeded ∧
    create_api_tool_provider env100 [] 1 ("u") ("t") ("p") ("i") credsPlain ("openapi")
      ("s") ("") ("") ≠ .error .limitExceeded ∧
    update_api_tool_provider env101 [provA] ("u") ("t") ("x") ("p") ("i") credsPlain
      ("openapi") ("s") ("") ("") ≠ .error .limitExceeded :=
  ⟨(create_limit_enforced_update_not env101 [] 1 ("u") ("t") ("p") ("i") credsPlain
      ("openapi") ("s") ("") ("") (List.replicate 101 sampleBundle) ("openapi") ("")
      rfl rfl rfl).1 (by decide),
   (create_limit_enforced_update_not env100 [] 1 ("u") ("t") ("p") ("i") credsPlain
      ("openapi") ("s") ("") ("") (List.replicate 100 sampleBundle) ("openapi") ("")
      rfl rfl rfl).2.1 (by decide),
   (create_limit_enforced_update_not env101 [provA] 1 ("u") ("t") ("x") ("i") credsPlain
      ("openapi") ("s") ("") ("") (List.replicate 101 sampleBundle) ("openapi") ("")
      rfl rfl rfl).2.2 ("p")⟩

/-- Counterexample for C4 as stated: starting from a store satisfying the
uniqueness invariant, a successful update renaming provider p to q — the
name provB already holds under the same tenant — produces a store with two
records sharing (tenant id, name). -/
theorem update_rename_breaks_uniqueness :
    uniqueTenantNames [provA, provB] = true ∧
    update_api_tool_provider envA [provA, provB] ("u") ("t") ("q") ("p") ("i2")
      credsMasked ("openapi") ("s2") ("pp") ("cd")
      = .ok ([provARenamedQ, provB], ("success")) ∧
    provARenamedQ.tenant_id = provB.tenant_id ∧
    provARenamedQ.name = provB.name ∧
    uniqueTenantNames [provARenamedQ, provB] = false :=
  ⟨by decide, rfl, rfl, rfl, by decide⟩

/-- C4 (amended): createProvider always preserves the uniqueness
invariant; updateProvider preserves it provided the submitted trimmed name
collides with no record of the tenant other than the one being renamed —
without that proviso a rename onto an existing name violates it. -/
theorem uniqueness_preserved_amended (env : Env) (store : Store) (nextId : Nat)
    (user_id tenant_id provider_name original_provider icon : String)
    (credentials : Creds)
    (schema_type schema privacy_policy custom_disclaimer : String) :
    (∀ store2 res, uniqueTenantNames store = true →
      create_api_tool_provider env store nextId user_id tenant_id provider_name icon
        credentials schema_type schema privacy_policy custom_disclaimer
        = .ok (store2, res) →
      uniqueTenantNames store2 = true) ∧
    (∀ store2 res, uniqueTenantNames store = true →
      (∀ p ∈ store, p.tenant_id = tenant_id → p.name = strTrim provider_name →
        p.name = original_provider) →
      update_api_tool_provider env store user_id tenant_id provider_name original_provider
        icon credentials schema_type schema privacy_policy custom_disclaimer
        = .ok (store2, res) →
      uniqueTenantNames store2 = true) := by
  constructor
  · intro store2 res hu hc
    obtain ⟨tb, st2, d, a, at_, hval, hfind, hparse, hlen, hauth, hvo, hres, hstore⟩ :=
      create_ok_extract env store nextId user_id tenant_id provider_name icon credentials
        schema_type schema privacy_policy custom_disclaimer store2 res hc
    subst hstore
    apply uniqueTenantNames_append_single _ _ hu
    intro p hp
    rw [distinctKey_eq_true]
    have hn := findProvider_eq_none store tenant_id (strTrim provider_name) hfind p hp
    simpa using hn
  · intro store2 res hu hcoll hup
    obtain ⟨provider, tb, st2, d, merged, hval, hfind, hparse, hmerge, hres, hstore⟩ :=
      update_ok_extract env store user_id tenant_id provider_name original_provider icon
        credentials schema_type schema privacy_policy custom_disclaimer store2 res hup
    subst hstore
    obtain ⟨hmem, hpt, hpn⟩ :=
      findProvider_eq_some store tenant_id original_provider provider hfind
    apply uniqueTenantNames_replaceFirst store tenant_id original_provider _ hu
    · simpa using hpt
    · intro p hp hptid hpname
      exact hcoll p hp hptid (by simpa using hpname)

/-- Witness for C4 (amended) at concrete inputs: a create and a
collision-free rename both end in stores satisfying the invariant. -/
theorem uniqueness_preserved_amended_witness :
    uniqueTenantNames [provA, provR] = true ∧
    uniqueTenantNames [provARenamedX, provB] = true :=
  ⟨(uniqueness_preserved_amended envA [provA] 2 ("u") ("t") ("r") ("p") ("i") credsPlain
      ("openapi") ("s") ("") ("")).1 [provA, provR] ("success") (by decide) rfl,
   (uniqueness_preserved_amended envA [provA, provB] 0 ("u") ("t") ("x") ("p") ("i2")
      credsMasked ("openapi") ("s2") ("pp") ("cd")).2 [provARenamedX, provB] ("success")
      (by decide) (by decide) rfl⟩

/-- C5: after a successful create of a trimmed name under a tenant, a
second create of the same trimmed name under the same tenant fails with
the conflict error, while a create of the same name under a different
tenant (where it is not yet taken) succeeds. -/
theorem create_conflict_and_cross_tenant (env : Env) (store : Store)
    (nid1 nid2 nid3 : Nat) (user_id tenant_id tenant2 provider_name icon : String)
    (credentials : Creds) (schema_type schema privacy_policy custom_disclaimer : String)
    (store1 : Store) (res1 : String)
    (h1 : create_api_tool_provider env store nid1 user_id tenant_id provider_name icon
        credentials schema_type schema privacy_policy custom_disclaimer
        = .ok (store1, res1))
    (ht2 : tenant2 ≠ tenant_id)
    (hfind2 : findProvider store tenant2 (strTrim provider_name) = none) :
    create_api_tool_provider env store1 nid2 user_id tenant_id provider_name icon
      credentials schema_type schema privacy_policy custom_disclaimer
      = .error (.conflict (strTrim provider_name)) ∧
    ∃ store3,
      create_api_tool_provider env store1 nid3 user_id tenant2 provider_name icon
        credentials schema_type schema privacy_policy custom_disclaimer
        = .ok (store3, ("success")) := by
  obtain ⟨tb, st2, d, a, at_, hval, hfind, hparse, hlen, hauth, hvo, hres, hstore⟩ :=
    create_ok_extract env store nid1 user_id tenant_id provider_name icon credentials
      schema_type schema privacy_policy custom_disclaimer store1 res1 h1
  subst hstore
  have hmem : schema_type ∈ schemaTypeValues := by simpa using hval
  have ht2s : tenant_id ≠ tenant2 := Ne.symm ht2
  constructor
  · simp [create_api_tool_provider, hval, hmem, findProvider_append, hfind, findProvider]
  · exact ⟨_, by
      simp [create_api_tool_provider, hval, hmem, findProvider_append, hfind2,
        findProvider, ht2s, hparse, hlen, hauth, hvo]
      rfl⟩

/-- Witness for C5 at a concrete input: provider p exists under tenant t,
a second create under t conflicts, a create under tenant t2 succeeds. -/
theorem create_conflict_and_cross_tenant_witness :
    create_api_tool_provider envA [provA] 2 ("u") ("t") ("p") ("i") credsPlain ("openapi")
      ("s") ("") ("") = .error (.conflict (strTrim ("p"))) ∧
    ∃ store3,
      create_api_tool_provider envA [provA] 3 ("u") ("t2") ("p") ("i") credsPlain
        ("openapi") ("s") ("") ("") = .ok (store3, ("success")) :=
  create_conflict_and_cross_tenant envA [] 1 2 3 ("u") ("t") ("t2") ("p") ("i")
    credsPlain ("openapi") ("s") ("") ("") [provA] ("success") rfl (by decide) rfl

/-- Counterexample for C6 as stated: swagger is a recognised schema type,
the parser reports swagger, yet the updated record stores the fixed
OpenAPI value rather than the submitted and validated (or parsed) schema
type. -/
theorem update_schema_type_hardcoded_counterexample :
    schemaTypeValues.contains ("swagger") = true ∧
    (envSwag.parse ("s2")).map (fun r => r.2.1) = .ok ("swagger") ∧
    update_api_tool_provider envSwag [provA] ("u") ("t") ("p") ("p") ("i2") credsMasked
      ("swagger") ("s2") ("pp") ("cd") = .ok ([provAUpdated], ("success")) ∧
    provAUpdated.schema_type_str = ("openapi") ∧
    (("openapi") : String) ≠ ("swagger") :=
  ⟨rfl, rfl, rfl, rfl, by decide⟩

/-- C6 (amended): a successful updateProvider replaces name (trimmed),
icon, schema text, description, bundles, encrypted merged credentials,
privacy policy and custom disclaimer with the submitted or freshly
compiled values and leaves identity, tenant id and owner user id
unchanged, but stores the schema type as the fixed OpenAPI value
regardless of the submitted or parsed schema type. -/
theorem update_full_field_replace_amended (env : Env) (store : Store)
    (user_id tenant_id provider_name original_provider icon : String)
    (credentials : Creds) (schema_type schema privacy_policy custom_disclaimer : String)
    (store2 : Store) (res : String) (provider : ApiToolProvider)
    (hfind : findProvider store tenant_id original_provider = some provider)
    (hupd : update_api_tool_provider env store user_id tenant_id provider_name
        original_provider icon credentials schema_type schema privacy_policy
        custom_disclaimer = .ok (store2, res)) :
    ∃ tool_bundles schema_type2 description merged,
      env.parse schema = .ok (tool_bundles, schema_type2, description) ∧
      mergeCredentials (env.decrypt provider.credentials_str)
        (env.mask (env.decrypt provider.credentials_str)) credentials = .ok merged ∧
      store2 = replaceFirst store tenant_id original_provider
        { id := provider.id, tenant_id := provider.tenant_id, user_id := provider.user_id,
          name := strTrim provider_name, icon := icon, schema := schema,
          description := description, schema_type_str := ("openapi"),
          tools_str := tool_bundles, credentials_str := env.encrypt merged,
          privacy_policy := privacy_policy, custom_disclaimer := custom_disclaimer } := by
  obtain ⟨provider2, tb, st2, d, merged, hval, hfind2, hparse, hmerge, hres, hstore⟩ :=
    update_ok_extract env store user_id tenant_id provider_name original_provider icon
      credentials schema_type schema privacy_policy custom_disclaimer store2 res hupd
  rw [hfind] at hfind2
  obtain rfl : provider = provider2 := by injection hfind2
  exact ⟨tb, st2, d, merged, hparse, hmerge, hstore⟩

/-- Witness for C6 (amended) at a concrete input: updating provider p
under the swagger schema type stores the OpenAPI value and keeps
identity, tenant and owner. -/
theorem update_full_field_replace_amended_witness :
    ∃ tool_bundles schema_type2 description merged,
      envSwag.parse ("s2") = .ok (tool_bundles, schema_type2, description) ∧
      mergeCredentials (envSwag.decrypt provA.credentials_str)
        (envSwag.mask (envSwag.decrypt provA.credentials_str)) credsMasked
        = .ok merged ∧
      [provAUpdated] = replaceFirst [provA] ("t") ("p")
        { id := provA.id, tenant_id := provA.tenant_id, user_id := provA.user_id,
          name := strTrim ("p"), icon := ("i2"), schema := ("s2"),
          description := description, schema_type_str := ("openapi"),
          tools_str := tool_bundles, credentials_str := envSwag.encrypt merged,
          privacy_policy := ("pp"), custom_disclaimer := ("cd") } :=
  update_full_field_replace_amended envSwag [provA] ("u") ("t") ("p") ("p") ("i2")
    credsMasked ("swagger") ("s2") ("pp") ("cd") [provAUpdated] ("success") provA rfl rfl

/-- Counterexample for C7 as stated: a failure of the credential-format
validation is not surfaced as a request-level failure — the call returns
the structured error payload instead. -/
theorem preview_swallows_validation_error :
    test_api_tool_preview envFmtBad [] ("t") ("p") ("op1") credsPlain [] ("openapi") ("s")
      = .ok (.error ("api_key_value is required")) := rfl

/-- C7 (amended): the try block of testPreview converts credential-format
validation failures (alongside the live validation call and tool fetch)
into the structured error result, while errors raised before the block —
the reachable operation-id lookup failure and schema parse failure —
surface directly as request-level failures. -/
theorem preview_error_catching_amended (env : Env) (store : Store)
    (tenant_id provider_name tool_name : String) (credentials : Creds)
    (parameters : List (String × String)) (schema_type schema : String) :
    (∀ bundles ty d tb a at_ creds2 m,
      schemaTypeValues.contains schema_type = true →
      env.parse schema = .ok (bundles, ty, d) →
      bundles.find? (fun b => b.operation_id == tool_name) = some tb →
      lookupCred credentials ("auth_type") = some a →
      ApiProviderAuthType.value_of a = .ok at_ →
      previewEffectiveCredentials env
        (previewProviderRecord store tenant_id provider_name schema bundles credentials)
        credentials = .ok creds2 →
      env.validateCredentialsFormat at_ creds2 = .error m →
      test_api_tool_preview env store tenant_id provider_name tool_name credentials
        parameters schema_type schema = .ok (.error m)) ∧
    (∀ bundles ty d,
      schemaTypeValues.contains schema_type = true →
      env.parse schema = .ok (bundles, ty, d) →
      bundles.find? (fun b => b.operation_id == tool_name) = none →
      test_api_tool_preview env store tenant_id provider_name tool_name credentials
        parameters schema_type schema = .error (.invalidToolName tool_name)) ∧
    (∀ e,
      schemaTypeValues.contains schema_type = true →
      env.parse schema = .error e →
      test_api_tool_preview env store tenant_id provider_name tool_name credentials
        parameters schema_type schema = .error .invalidSchemaShort) := by
  refine ⟨?_, ?_, ?_⟩
  · intro bundles ty d tb a at_ creds2 m hval hparse htool hauth hvo heff hfmt
    have hmem : schema_type ∈ schemaTypeValues := by simpa using hval
    simp [test_api_tool_preview, previewTryBlock, hval, hmem, hparse, htool, hauth, hvo,
      heff, hfmt]
  · intro bundles ty d hval hparse htool
    have hmem : schema_type ∈ schemaTypeValues := by simpa using hval
    simp [test_api_tool_preview, hval, hmem, hparse, htool]
  · intro e hval hparse
    have hmem : schema_type ∈ schemaTypeValues := by simpa using hval
    simp [test_api_tool_preview, hval, hmem, hparse]

/-- Witness for C7 (amended) at concrete inputs: a format-validation
failure comes back as the structured error payload, while an unknown
operation id and an unparsable schema raise. -/
theorem preview_error_catching_amended_witness :
    test_api_tool_preview envFmtBad [] ("t") ("p2") ("op1") credsPlain [] ("openapi") ("s")
      = .ok (.error ("api_key_value is required")) ∧
    test_api_tool_preview envA [] ("t") ("p2") ("nope") credsPlain [] ("openapi") ("s")
      = .error (.invalidToolName ("nope")) ∧
    test_api_tool_preview envA [] ("t") ("p2") ("op1") credsPlain [] ("openapi") ("bad")
      = .error .invalidSchemaShort :=
  ⟨(preview_error_catching_amended envFmtBad [] ("t") ("p2") ("op1") credsPlain []
      ("openapi") ("s")).1 [sampleBundle] ("openapi") ("") sampleBundle ("api_key")
      .api_key credsPlain ("api_key_value is required") rfl rfl rfl rfl rfl rfl rfl,
   (preview_error_catching_amended envA [] ("t") ("p2") ("nope") credsPlain []
      ("openapi") ("s")).2.1 [sampleBundle] ("openapi") ("") rfl rfl rfl,
   (preview_error_catching_amended envA [] ("t") ("p2") ("op1") credsPlain []
      ("openapi") ("bad")).2.2 ("boom") rfl rfl⟩

/-- C8: a testPreview whose provider name matches no stored record of the
tenant does not fail on the missing record — it operates on the ephemeral
in-memory record with empty tenant, user and name — and when the bound
tool's live validation throws, the call returns the structured error
payload instead of raising. -/
theorem preview_ephemeral_and_error_payload (env : Env) (store : Store)
    (tenant_id provider_name tool_name : String) (credentials : Creds)
    (parameters : List (String × String)) (schema_type schema : String)
    (bundles : List ApiToolBundle) (ty d : String) (tb : ApiToolBundle)
    (a : String) (at_ : ApiProviderAuthType) (msg : String)
    (hval : schemaTypeValues.contains schema_type = true)
    (hparse : env.parse schema = .ok (bundles, ty, d))
    (htool : bundles.find? (fun b => b.operation_id == tool_name) = some tb)
    (hfind : findProvider store tenant_id provider_name = none)
    (hauth : lookupCred credentials ("auth_type") = some a)
    (hvo : ApiProviderAuthType.value_of a = .ok at_)
    (hfmt : env.validateCredentialsFormat at_ credentials = .ok ())
    (hlive : env.validateCredentialsLive credentials parameters = .error msg) :
    previewProviderRecord store tenant_id provider_name schema bundles credentials
      = { id := none, tenant_id := (""), user_id := (""), name := (""), icon := (""),
          schema := schema, description := (""), schema_type_str := ("openapi"),
          tools_str := bundles, credentials_str := credentials,
          privacy_policy := (""), custom_disclaimer := ("") } ∧
    test_api_tool_preview env store tenant_id provider_name tool_name credentials
      parameters schema_type schema = .ok (.error msg) := by
  have hmem : schema_type ∈ schemaTypeValues := by simpa using hval
  have hrec : previewProviderRecord store tenant_id provider_name schema bundles
      credentials
      = { id := none, tenant_id := (""), user_id := (""), name := (""), icon := (""),
          schema := schema, description := (""), schema_type_str := ("openapi"),
          tools_str := bundles, credentials_str := credentials,
          privacy_policy := (""), custom_disclaimer := ("") } := by
    simp [previewProviderRecord, hfind, ApiProviderSchemaType.value]
  refine ⟨hrec, ?_⟩
  simp [test_api_tool_preview, previewEffectiveCredentials, previewTryBlock, hval, hmem,
    hparse, htool, hauth, hvo, hfmt, hlive, hrec]

/-- Witness for C8 at a concrete input: no record is stored, the ephemeral
record is used and the failing live validation returns the error
payload. -/
theorem preview_ephemeral_and_error_payload_witness :
    previewProviderRecord [] ("t") ("p") ("s") [sampleBundle] credsPlain
      = { id := none, tenant_id := (""), user_id := (""), name := (""), icon := (""),
          schema := ("s"), description := (""), schema_type_str := ("openapi"),
          tools_str := [sampleBundle], credentials_str := credsPlain,
          privacy_policy := (""), custom_disclaimer := ("") } ∧
    test_api_tool_preview envLiveBad [] ("t") ("p") ("op1") credsPlain [] ("openapi") ("s")
      = .ok (.error ("connection refused")) :=
  preview_ephemeral_and_error_payload envLiveBad [] ("t") ("p") ("op1") credsPlain []
    ("openapi") ("s") [sampleBundle] ("openapi") ("") sampleBundle ("api_key") .api_key
    ("connection refused") rfl rfl rfl rfl rfl rfl rfl rfl

/-- C9: every failure of fetchRemoteSchema — network error, non-success
HTTP status, parse failure of the fetched text — is normalised to the one
generic invalid-schema error, whose user-visible message is the same fixed
text in all cases and carries neither the status code nor internal
exception detail. -/
theorem fetch_remote_schema_failures_normalized (env : Env) (url : String) :
    (∀ e, env.httpGet url = .error e →
      get_api_tool_provider_remote_schema env url = .error .remoteSchemaInvalid) ∧
    (∀ status body, env.httpGet url = .ok (status, body) → status ≠ 200 →
      get_api_tool_provider_remote_schema env url = .error .remoteSchemaInvalid) ∧
    (∀ body pe, env.httpGet url = .ok (200, body) → env.parse body = .error pe →
      get_api_tool_provider_remote_schema env url = .error .remoteSchemaInvalid) ∧
    SvcError.message .remoteSchemaInvalid
      = ("invalid schema, please check the url you provided") := by
  refine ⟨?_, ?_, ?_, rfl⟩
  · intro e he
    simp [get_api_tool_provider_remote_schema, he]
  · intro status body hok hne
    simp [get_api_tool_provider_remote_schema, hok, hne]
  · intro body pe hok hpe
    simp [get_api_tool_provider_remote_schema, hok, hpe]

/-- Witness for C9 at a concrete input: an HTTP 404 response yields the
generic error with the fixed message. -/
theorem fetch_remote_schema_failures_normalized_witness :
    get_api_tool_provider_remote_schema env404 ("u1") = .error .remoteSchemaInvalid ∧
    SvcError.message .remoteSchemaInvalid
      = ("invalid schema, please check the url you provided") :=
  ⟨(fetch_remote_schema_failures_normalized env404 ("u1")).2.1 404 ("not here") rfl
      (by decide),
   (fetch_remote_schema_failures_normalized env404 ("u1")).2.2.2⟩

/-- C10: fetchRemoteSchema accepts only status code exactly 200 — every
other status, the success-class 201 and 204 included, makes the fetch fail
with the generic invalid-schema error. -/
theorem fetch_remote_schema_requires_status_200 (env : Env) (url : String)
    (status : Nat) (body : String)
    (h : env.httpGet url = .ok (status, body)) (hne : status ≠ 200) :
    get_api_tool_provider_remote_schema env url = .error .remoteSchemaInvalid := by
  simp [get_api_tool_provider_remote_schema, h, hne]

/-- Witness for C10 at concrete inputs: the success-class statuses 201
and 204 are rejected. -/
theorem fetch_remote_schema_requires_status_200_witness :
    get_api_tool_provider_remote_schema env201 ("u1") = .error .remoteSchemaInvalid ∧
    get_api_tool_provider_remote_schema env204 ("u1") = .error .remoteSchemaInvalid :=
  ⟨fetch_remote_schema_requires_status_200 env201 ("u1") 201 ("created") rfl (by decide),
   fetch_remote_schema_requires_status_200 env204 ("u1") 204 ("") rfl (by decide)⟩
